import Mathlib

/-!
Verification of `Source/Scene/ModelExperimental/ModelExperimentalStatistics.js`
from the cesium repository: a per-model resource-accounting structure that
reports memory consumption without double-counting shared resources.

The JavaScript code is shallowly embedded: the statistics object becomes a
Lean structure, each method a pure function from the old state to the new
state, and JavaScript numbers become `Nat` (the spec declares every quantity a
non-negative integer and puts representation overflow out of scope).

Resource identities (`_id`) are used as plain-object property keys in the
source (`this._bufferIdSet[buffer._id]`, tested with `hasOwnProperty`), so
JavaScript coerces them to strings; `JSId.toKey` models that coercion.
-/

namespace Cesium

/-- Identity value carried by a resource reference (its `_id` field).
JavaScript ids in this code base are numbers or strings; when used as a
plain-object property key the value is coerced to a string. -/
inductive JSId where
  | num (n : Int)
  | str (s : String)
deriving DecidableEq, Repr

/-- JavaScript string coercion of an id when used as a property key
(`ToPropertyKey`): numbers print in decimal, strings are themselves. -/
def JSId.toKey : JSId → String
  | .num n => toString n
  | .str s => s

/-- GPU buffer reference as consumed by `addBuffer`: an identity and a byte
size (`sizeInBytes`). -/
structure Buffer where
  _id : JSId
  sizeInBytes : Nat
deriving DecidableEq, Repr

/-- Texture reference as consumed by `addTexture`: an identity and a byte
size (`sizeInBytes`). -/
structure Texture where
  _id : JSId
  sizeInBytes : Nat
deriving DecidableEq, Repr

/-- Batch (overlay) texture reference as consumed by `addBatchTexture`: an
identity plus a heap reference. Its `byteLength` is a live accessor whose
value changes out-of-band (asynchronous load), so it is not a field here:
reads sample an environment `σ : Nat → Nat` mapping the heap reference to the
current byte length at the instant of the read. -/
structure BatchTexture where
  _id : JSId
  ref : Nat
deriving DecidableEq, Repr

/-- Modelled from the spec: `Core/AssociativeArray.js` is imported by the
statistics module but is not part of this slice's sources. The spec describes
it as an "ordered mapping from overlay-texture identity → reference to
overlay-texture record"; the operations the statistics module uses are
`contains`, `set`, `removeAll`, `values` and `length`. It is modelled as an
insertion-ordered list of key/value entries with unique keys. -/
structure AssociativeArray (α : Type) where
  entries : List (String × α)
deriving DecidableEq, Repr

namespace AssociativeArray

/-- Modelled from the spec: number of entries in the mapping. -/
def length {α : Type} (a : AssociativeArray α) : Nat :=
  a.entries.length

/-- Modelled from the spec: the stored references, in insertion order. -/
def values {α : Type} (a : AssociativeArray α) : List α :=
  a.entries.map Prod.snd

/-- Modelled from the spec: membership test on identities. -/
def contains {α : Type} (a : AssociativeArray α) (k : String) : Bool :=
  a.entries.any (fun e => e.1 == k)

/-- Modelled from the spec: associate `k` with `v`; a fresh key is appended
in insertion order, an existing key has its value replaced in place. (The
statistics module only ever calls `set` on a key it has checked to be
absent.) -/
def set {α : Type} (a : AssociativeArray α) (k : String) (v : α) :
    AssociativeArray α :=
  if a.contains k then
    ⟨a.entries.map (fun e => if e.1 == k then (k, v) else e)⟩
  else
    ⟨a.entries ++ [(k, v)]⟩

/-- Modelled from the spec: remove every entry. -/
def removeAll {α : Type} : AssociativeArray α :=
  ⟨[]⟩

end AssociativeArray

/-- Idempotent insertion into an id set. The source writes
`this._bufferIdSet[buffer._id] = true` on a plain object; the observable set
of keys gains `k` when absent and is unchanged when present. -/
def insertKey (s : List String) (k : String) : List String :=
  if k ∈ s then s else k :: s

/-- The statistics record: five scalar totals, two deduplication id sets and
the batch-texture registry, exactly the fields initialised by the
`ModelExperimentalStatistics` constructor. -/
structure ModelExperimentalStatistics where
  pointsLength : Nat
  trianglesLength : Nat
  geometryByteLength : Nat
  texturesByteLength : Nat
  propertyTablesByteLength : Nat
  _bufferIdSet : List String
  _textureIdSet : List String
  _batchTextureIdMap : AssociativeArray BatchTexture
deriving DecidableEq, Repr

namespace ModelExperimentalStatistics

/-- The constructor: all totals zero, all sets and the registry empty. -/
def init : ModelExperimentalStatistics :=
  { pointsLength := 0
    trianglesLength := 0
    geometryByteLength := 0
    texturesByteLength := 0
    propertyTablesByteLength := 0
    _bufferIdSet := []
    _textureIdSet := []
    _batchTextureIdMap := ⟨[]⟩ }

/-- The `batchTexturesByteLength` computed property: loops over the registry's
values accumulating `values[i].byteLength`; the live `byteLength` accessor is
sampled through the read-time environment `σ`. -/
def batchTexturesByteLength (s : ModelExperimentalStatistics)
    (σ : Nat → Nat) : Nat :=
  s._batchTextureIdMap.values.foldl (fun memory bt => memory + σ bt.ref) 0

/-- Method `clear()`: zero the five totals, empty both id sets, remove all registry
entries. -/
def clear (s : ModelExperimentalStatistics) : ModelExperimentalStatistics :=
  { s with
    pointsLength := 0
    trianglesLength := 0
    geometryByteLength := 0
    texturesByteLength := 0
    propertyTablesByteLength := 0
    _bufferIdSet := []
    _textureIdSet := []
    _batchTextureIdMap := AssociativeArray.removeAll }

/-- Method `addBuffer(buffer, hasCpuCopy)` past the debug type check: if the
buffer's id is not yet in `_bufferIdSet`, add `sizeInBytes * copies` to
`geometryByteLength` with `copies = hasCpuCopy ? 2 : 1`; then unconditionally
mark the id as seen. -/
def addBuffer (s : ModelExperimentalStatistics) (buffer : Buffer)
    (hasCpuCopy : Bool) : ModelExperimentalStatistics :=
  let s1 :=
    if buffer._id.toKey ∈ s._bufferIdSet then s
    else
      { s with
        geometryByteLength :=
          s.geometryByteLength +
            buffer.sizeInBytes * (if hasCpuCopy then 2 else 1) }
  { s1 with _bufferIdSet := insertKey s1._bufferIdSet buffer._id.toKey }

/-- Method `addTexture(texture)` past the debug type check: if the texture's id is
not yet in `_textureIdSet`, add `sizeInBytes` to `texturesByteLength`; then
unconditionally mark the id as seen. -/
def addTexture (s : ModelExperimentalStatistics) (texture : Texture) :
    ModelExperimentalStatistics :=
  let s1 :=
    if texture._id.toKey ∈ s._textureIdSet then s
    else
      { s with
        texturesByteLength := s.texturesByteLength + texture.sizeInBytes }
  { s1 with _textureIdSet := insertKey s1._textureIdSet texture._id.toKey }

/-- Method `addBatchTexture(batchTexture)` past the debug type check: if the id is
not in the registry, insert the id → reference mapping; otherwise do
nothing. No size is read at registration time. -/
def addBatchTexture (s : ModelExperimentalStatistics)
    (batchTexture : BatchTexture) : ModelExperimentalStatistics :=
  if s._batchTextureIdMap.contains batchTexture._id.toKey then s
  else
    { s with
      _batchTextureIdMap :=
        s._batchTextureIdMap.set batchTexture._id.toKey batchTexture }

end ModelExperimentalStatistics

/-- Modelled from the spec: the error taxonomy is the single kind
`InvalidArgument`, raised by the debug-mode `Check` boundary (the imported
`Core/Check.js` is not part of this slice's sources). -/
inductive CesiumError where
  | invalidArgument
deriving DecidableEq, Repr

namespace ModelExperimentalStatistics

/-- Modelled from the spec: `addBuffer` with its debug-mode boundary checks.
`Check.typeOf.object("buffer", buffer)` raises `InvalidArgument` when the
required reference is missing (modelled as `none`), and
`Check.typeOf.bool("hasCpuCopy", hasCpuCopy)` raises when the flag is not a
boolean (modelled as `none`); both checks run before any mutation, so a
raised error propagates with the record unchanged. -/
def addBufferChecked (s : ModelExperimentalStatistics)
    (buffer : Option Buffer) (hasCpuCopy : Option Bool) :
    Except CesiumError ModelExperimentalStatistics :=
  match buffer with
  | none => .error .invalidArgument
  | some b =>
    match hasCpuCopy with
    | none => .error .invalidArgument
    | some c => .ok (s.addBuffer b c)

/-- Modelled from the spec: `addTexture` with its debug-mode boundary check
(`Check.typeOf.object("texture", texture)`), raised before any mutation. -/
def addTextureChecked (s : ModelExperimentalStatistics)
    (texture : Option Texture) :
    Except CesiumError ModelExperimentalStatistics :=
  match texture with
  | none => .error .invalidArgument
  | some t => .ok (s.addTexture t)

/-- Modelled from the spec: `addBatchTexture` with its debug-mode boundary
check (`Check.typeOf.object("batchTexture", batchTexture)`), raised before
any mutation. -/
def addBatchTextureChecked (s : ModelExperimentalStatistics)
    (batchTexture : Option BatchTexture) :
    Except CesiumError ModelExperimentalStatistics :=
  match batchTexture with
  | none => .error .invalidArgument
  | some bt => .ok (s.addBatchTexture bt)

end ModelExperimentalStatistics

/-- A registration event in one generation: the two operations that feed the
immediate, deduplicated totals. -/
inductive RegOp where
  | buffer (b : Buffer) (hasCpuCopy : Bool)
  | texture (t : Texture)
deriving DecidableEq, Repr

/-- Apply one registration to the statistics record. -/
def applyOp (s : ModelExperimentalStatistics) : RegOp →
    ModelExperimentalStatistics
  | .buffer b c => s.addBuffer b c
  | .texture t => s.addTexture t

/-- Apply a sequence of registrations in order. -/
def applyOps (s : ModelExperimentalStatistics) (ops : List RegOp) :
    ModelExperimentalStatistics :=
  ops.foldl applyOp s

/-- Key a registration touches in `_bufferIdSet`, when it is a buffer
registration. -/
def RegOp.bufKey : RegOp → Option String
  | .buffer b _ => some b._id.toKey
  | .texture _ => none

/-- Key a registration touches in `_textureIdSet`, when it is a texture
registration. -/
def RegOp.texKey : RegOp → Option String
  | .buffer _ _ => none
  | .texture t => some t._id.toKey

/-- Bytes a buffer registration adds to `geometryByteLength` when its id is
fresh. -/
def RegOp.bufContrib : RegOp → Option Nat
  | .buffer b c => some (b.sizeInBytes * (if c then 2 else 1))
  | .texture _ => none

/-- Bytes a texture registration adds to `texturesByteLength` when its id is
fresh. -/
def RegOp.texContrib : RegOp → Option Nat
  | .buffer _ _ => none
  | .texture t => some t.sizeInBytes

/-- The identity a registration deduplicates on: which of the two id sets it
keys into (`true` for the buffer set), together with the string coercion of
its `_id`. Two registrations with the same identity hit the same
`hasOwnProperty` test regardless of their sizes or flags. -/
def RegOp.identity : RegOp → Bool × String
  | .buffer b _ => (true, b._id.toKey)
  | .texture t => (false, t._id.toKey)

/-- Whether an identity is already marked as seen in the record's
corresponding id set. -/
def registeredIdentity (s : ModelExperimentalStatistics) :
    Bool × String → Prop
  | (true, k) => k ∈ s._bufferIdSet
  | (false, k) => k ∈ s._textureIdSet

/-- First-occurrence subsequence of a registration sequence: keep each
registration whose identity is not in the given seen sets (initially the
record's own id sets) and has not occurred earlier in the sequence; drop
every later re-registration of the same identity, whatever its size or
flag. -/
def dedupFrom (bufSeen texSeen : List String) : List RegOp → List RegOp
  | [] => []
  | .buffer b c :: rest =>
    if b._id.toKey ∈ bufSeen then dedupFrom bufSeen texSeen rest
    else .buffer b c :: dedupFrom (b._id.toKey :: bufSeen) texSeen rest
  | .texture t :: rest =>
    if t._id.toKey ∈ texSeen then dedupFrom bufSeen texSeen rest
    else .texture t :: dedupFrom bufSeen (t._id.toKey :: texSeen) rest

/-! ## Helper lemmas -/

namespace ModelExperimentalStatistics

theorem addBuffer_eq (s : ModelExperimentalStatistics) (b : Buffer)
    (c : Bool) :
    s.addBuffer b c =
      if b._id.toKey ∈ s._bufferIdSet then s
      else
        { s with
          geometryByteLength :=
            s.geometryByteLength + b.sizeInBytes * (if c then 2 else 1)
          _bufferIdSet := b._id.toKey :: s._bufferIdSet } := by
  unfold addBuffer insertKey
  by_cases h : b._id.toKey ∈ s._bufferIdSet <;> simp [h]

theorem addTexture_eq (s : ModelExperimentalStatistics) (t : Texture) :
    s.addTexture t =
      if t._id.toKey ∈ s._textureIdSet then s
      else
        { s with
          texturesByteLength := s.texturesByteLength + t.sizeInBytes
          _textureIdSet := t._id.toKey :: s._textureIdSet } := by
  unfold addTexture insertKey
  by_cases h : t._id.toKey ∈ s._textureIdSet <;> simp [h]

theorem mem_bufferIdSet_addBuffer (s : ModelExperimentalStatistics)
    (b : Buffer) (c : Bool) :
    b._id.toKey ∈ (s.addBuffer b c)._bufferIdSet := by
  rw [addBuffer_eq]
  split
  · assumption
  · exact List.mem_cons_self _ _

theorem mem_textureIdSet_addTexture (s : ModelExperimentalStatistics)
    (t : Texture) :
    t._id.toKey ∈ (s.addTexture t)._textureIdSet := by
  rw [addTexture_eq]
  split
  · assumption
  · exact List.mem_cons_self _ _

theorem addBuffer_frame (s : ModelExperimentalStatistics) (b : Buffer)
    (c : Bool) :
    (s.addBuffer b c).pointsLength = s.pointsLength ∧
    (s.addBuffer b c).trianglesLength = s.trianglesLength ∧
    (s.addBuffer b c).texturesByteLength = s.texturesByteLength ∧
    (s.addBuffer b c).propertyTablesByteLength = s.propertyTablesByteLength ∧
    (s.addBuffer b c)._textureIdSet = s._textureIdSet ∧
    (s.addBuffer b c)._batchTextureIdMap = s._batchTextureIdMap := by
  rw [addBuffer_eq]
  split <;> exact ⟨rfl, rfl, rfl, rfl, rfl, rfl⟩

theorem addTexture_frame (s : ModelExperimentalStatistics) (t : Texture) :
    (s.addTexture t).pointsLength = s.pointsLength ∧
    (s.addTexture t).trianglesLength = s.trianglesLength ∧
    (s.addTexture t).geometryByteLength = s.geometryByteLength ∧
    (s.addTexture t).propertyTablesByteLength = s.propertyTablesByteLength ∧
    (s.addTexture t)._bufferIdSet = s._bufferIdSet ∧
    (s.addTexture t)._batchTextureIdMap = s._batchTextureIdMap := by
  rw [addTexture_eq]
  split <;> exact ⟨rfl, rfl, rfl, rfl, rfl, rfl⟩

theorem addBatchTexture_frame (s : ModelExperimentalStatistics)
    (bt : BatchTexture) :
    (s.addBatchTexture bt).pointsLength = s.pointsLength ∧
    (s.addBatchTexture bt).trianglesLength = s.trianglesLength ∧
    (s.addBatchTexture bt).geometryByteLength = s.geometryByteLength ∧
    (s.addBatchTexture bt).texturesByteLength = s.texturesByteLength ∧
    (s.addBatchTexture bt).propertyTablesByteLength =
      s.propertyTablesByteLength ∧
    (s.addBatchTexture bt)._bufferIdSet = s._bufferIdSet ∧
    (s.addBatchTexture bt)._textureIdSet = s._textureIdSet := by
  unfold addBatchTexture
  split <;> exact ⟨rfl, rfl, rfl, rfl, rfl, rfl, rfl⟩

theorem addBuffer_mem (s : ModelExperimentalStatistics) (b : Buffer)
    (c : Bool) (h : b._id.toKey ∈ s._bufferIdSet) : s.addBuffer b c = s := by
  rw [addBuffer_eq, if_pos h]

theorem addTexture_mem (s : ModelExperimentalStatistics) (t : Texture)
    (h : t._id.toKey ∈ s._textureIdSet) : s.addTexture t = s := by
  rw [addTexture_eq, if_pos h]

theorem addBuffer_fresh (s : ModelExperimentalStatistics) (b : Buffer)
    (c : Bool) (h : b._id.toKey ∉ s._bufferIdSet) :
    (s.addBuffer b c).geometryByteLength =
      s.geometryByteLength + b.sizeInBytes * (if c then 2 else 1) ∧
    (s.addBuffer b c)._bufferIdSet = b._id.toKey :: s._bufferIdSet := by
  rw [addBuffer_eq, if_neg h]
  exact ⟨rfl, rfl⟩

theorem addTexture_fresh (s : ModelExperimentalStatistics) (t : Texture)
    (h : t._id.toKey ∉ s._textureIdSet) :
    (s.addTexture t).texturesByteLength =
      s.texturesByteLength + t.sizeInBytes ∧
    (s.addTexture t)._textureIdSet = t._id.toKey :: s._textureIdSet := by
  rw [addTexture_eq, if_neg h]
  exact ⟨rfl, rfl⟩

end ModelExperimentalStatistics

namespace AssociativeArray

theorem contains_set_self {α : Type} (a : AssociativeArray α) (k : String)
    (v : α) : (a.set k v).contains k = true := by
  unfold set
  by_cases h : a.contains k
  · rw [if_pos h]
    unfold contains at h ⊢
    simp only [List.any_eq_true] at h ⊢
    obtain ⟨e, he, hk⟩ := h
    exact ⟨(k, v), List.mem_map.mpr ⟨e, he, by simp [hk]⟩, by simp⟩
  · rw [if_neg h]
    unfold contains
    simp

theorem set_fresh {α : Type} (a : AssociativeArray α) (k : String) (v : α)
    (h : a.contains k = false) :
    (a.set k v).entries = a.entries ++ [(k, v)] := by
  unfold set
  rw [if_neg (by simp [h])]

theorem values_set_fresh {α : Type} (a : AssociativeArray α) (k : String)
    (v : α) (h : a.contains k = false) :
    (a.set k v).values = a.values ++ [v] := by
  unfold values
  rw [set_fresh a k v h, List.map_append]
  rfl

end AssociativeArray

namespace ModelExperimentalStatistics

theorem contains_addBatchTexture_self (s : ModelExperimentalStatistics)
    (bt : BatchTexture) :
    (s.addBatchTexture bt)._batchTextureIdMap.contains bt._id.toKey =
      true := by
  unfold addBatchTexture
  split
  · assumption
  · exact AssociativeArray.contains_set_self _ _ _

theorem addBatchTexture_contained (s : ModelExperimentalStatistics)
    (bt : BatchTexture)
    (h : s._batchTextureIdMap.contains bt._id.toKey = true) :
    s.addBatchTexture bt = s := by
  unfold addBatchTexture
  rw [if_pos h]

theorem addBatchTexture_fresh (s : ModelExperimentalStatistics)
    (bt : BatchTexture)
    (h : s._batchTextureIdMap.contains bt._id.toKey = false) :
    (s.addBatchTexture bt)._batchTextureIdMap.entries =
      s._batchTextureIdMap.entries ++ [(bt._id.toKey, bt)] := by
  unfold addBatchTexture
  rw [if_neg (by simp [h])]
  exact AssociativeArray.set_fresh _ _ _ h

theorem foldl_add_eq (σ : Nat → Nat) (l : List BatchTexture) (a : Nat) :
    l.foldl (fun memory bt => memory + σ bt.ref) a =
      a + (l.map (fun bt => σ bt.ref)).sum := by
  induction l generalizing a with
  | nil => simp
  | cons x xs ih => simp [ih, Nat.add_assoc]

theorem batchTexturesByteLength_eq_sum (s : ModelExperimentalStatistics)
    (σ : Nat → Nat) :
    s.batchTexturesByteLength σ =
      (s._batchTextureIdMap.values.map (fun bt => σ bt.ref)).sum := by
  unfold batchTexturesByteLength
  rw [foldl_add_eq]
  exact Nat.zero_add _

end ModelExperimentalStatistics

theorem applyOp_applyOp_self (s : ModelExperimentalStatistics)
    (op : RegOp) : applyOp (applyOp s op) op = applyOp s op := by
  cases op with
  | buffer b c =>
    exact ModelExperimentalStatistics.addBuffer_mem _ b c
      (ModelExperimentalStatistics.mem_bufferIdSet_addBuffer s b c)
  | texture t =>
    exact ModelExperimentalStatistics.addTexture_mem _ t
      (ModelExperimentalStatistics.mem_textureIdSet_addTexture s t)

open ModelExperimentalStatistics in
theorem mem_bufferIdSet_addBuffer_of_mem (s : ModelExperimentalStatistics)
    (b : Buffer) (c : Bool) (k : String) (h : k ∈ s._bufferIdSet) :
    k ∈ (s.addBuffer b c)._bufferIdSet := by
  rw [addBuffer_eq]
  split
  · exact h
  · exact List.mem_cons_of_mem _ h

open ModelExperimentalStatistics in
theorem mem_textureIdSet_addTexture_of_mem (s : ModelExperimentalStatistics)
    (t : Texture) (k : String) (h : k ∈ s._textureIdSet) :
    k ∈ (s.addTexture t)._textureIdSet := by
  rw [addTexture_eq]
  split
  · exact h
  · exact List.mem_cons_of_mem _ h

open ModelExperimentalStatistics in
theorem registered_applyOp_self (s : ModelExperimentalStatistics)
    (op : RegOp) : registeredIdentity (applyOp s op) op.identity := by
  cases op with
  | buffer b c =>
    simpa [RegOp.identity, registeredIdentity, applyOp] using
      mem_bufferIdSet_addBuffer s b c
  | texture t =>
    simpa [RegOp.identity, registeredIdentity, applyOp] using
      mem_textureIdSet_addTexture s t

open ModelExperimentalStatistics in
theorem registeredIdentity_mono (s : ModelExperimentalStatistics)
    (op : RegOp) (p : Bool × String) (h : registeredIdentity s p) :
    registeredIdentity (applyOp s op) p := by
  obtain ⟨pb, pk⟩ := p
  cases pb with
  | true =>
    simp only [registeredIdentity] at h ⊢
    cases op with
    | buffer b c => exact mem_bufferIdSet_addBuffer_of_mem s b c pk h
    | texture t => exact (addTexture_frame s t).2.2.2.2.1 ▸ h
  | false =>
    simp only [registeredIdentity] at h ⊢
    cases op with
    | buffer b c => exact (addBuffer_frame s b c).2.2.2.2.1 ▸ h
    | texture t => exact mem_textureIdSet_addTexture_of_mem s t pk h

theorem registered_mono_applyOps (ops : List RegOp) :
    ∀ (s : ModelExperimentalStatistics) (p : Bool × String),
    registeredIdentity s p → registeredIdentity (applyOps s ops) p := by
  induction ops with
  | nil => intro s p h; exact h
  | cons op rest ih =>
    intro s p h
    exact ih (applyOp s op) p (registeredIdentity_mono s op p h)

open ModelExperimentalStatistics in
theorem applyOp_registered (s : ModelExperimentalStatistics) (op : RegOp)
    (h : registeredIdentity s op.identity) : applyOp s op = s := by
  cases op with
  | buffer b c =>
    simp only [RegOp.identity, registeredIdentity] at h
    exact addBuffer_mem s b c h
  | texture t =>
    simp only [RegOp.identity, registeredIdentity] at h
    exact addTexture_mem s t h

open ModelExperimentalStatistics in
theorem applyOps_dedupFrom (ops : List RegOp) :
    ∀ s : ModelExperimentalStatistics,
    applyOps s ops =
      applyOps s (dedupFrom s._bufferIdSet s._textureIdSet ops) := by
  induction ops with
  | nil => intro s; rfl
  | cons op rest ih =>
    intro s
    cases op with
    | buffer b c =>
      by_cases h : b._id.toKey ∈ s._bufferIdSet
      · have h1 : applyOps s (RegOp.buffer b c :: rest) = applyOps s rest := by
          show applyOps (s.addBuffer b c) rest = applyOps s rest
          rw [addBuffer_mem s b c h]
        have h2 : dedupFrom s._bufferIdSet s._textureIdSet
            (RegOp.buffer b c :: rest) =
            dedupFrom s._bufferIdSet s._textureIdSet rest := by
          simp [dedupFrom, h]
        rw [h1, h2, ih s]
      · have h2 : dedupFrom s._bufferIdSet s._textureIdSet
            (RegOp.buffer b c :: rest) =
            RegOp.buffer b c ::
              dedupFrom (b._id.toKey :: s._bufferIdSet) s._textureIdSet
                rest := by
          simp [dedupFrom, h]
        rw [h2]
        show applyOps (s.addBuffer b c) rest =
          applyOps (s.addBuffer b c)
            (dedupFrom (b._id.toKey :: s._bufferIdSet) s._textureIdSet rest)
        rw [ih (s.addBuffer b c), (addBuffer_fresh s b c h).2,
          (addBuffer_frame s b c).2.2.2.2.1]
    | texture t =>
      by_cases h : t._id.toKey ∈ s._textureIdSet
      · have h1 : applyOps s (RegOp.texture t :: rest) = applyOps s rest := by
          show applyOps (s.addTexture t) rest = applyOps s rest
          rw [addTexture_mem s t h]
        have h2 : dedupFrom s._bufferIdSet s._textureIdSet
            (RegOp.texture t :: rest) =
            dedupFrom s._bufferIdSet s._textureIdSet rest := by
          simp [dedupFrom, h]
        rw [h1, h2, ih s]
      · have h2 : dedupFrom s._bufferIdSet s._textureIdSet
            (RegOp.texture t :: rest) =
            RegOp.texture t ::
              dedupFrom s._bufferIdSet (t._id.toKey :: s._textureIdSet)
                rest := by
          simp [dedupFrom, h]
        rw [h2]
        show applyOps (s.addTexture t) rest =
          applyOps (s.addTexture t)
            (dedupFrom s._bufferIdSet (t._id.toKey :: s._textureIdSet) rest)
        rw [ih (s.addTexture t), (addTexture_fresh s t h).2,
          (addTexture_frame s t).2.2.2.2.1]

theorem dedupFrom_bufKeys (ops : List RegOp) :
    ∀ bufSeen texSeen : List String,
    ((dedupFrom bufSeen texSeen ops).filterMap RegOp.bufKey).Nodup ∧
    ∀ k ∈ (dedupFrom bufSeen texSeen ops).filterMap RegOp.bufKey,
      k ∉ bufSeen := by
  induction ops with
  | nil => intro bs ts; exact ⟨List.nodup_nil, by simp [dedupFrom]⟩
  | cons op rest ih =>
    intro bs ts
    cases op with
    | buffer b c =>
      by_cases h : b._id.toKey ∈ bs
      · simpa [dedupFrom, h] using ih bs ts
      · have hd : dedupFrom bs ts (RegOp.buffer b c :: rest) =
            RegOp.buffer b c :: dedupFrom (b._id.toKey :: bs) ts rest := by
          simp [dedupFrom, h]
        rw [hd]
        obtain ⟨hnd, hdis⟩ := ih (b._id.toKey :: bs) ts
        simp only [List.filterMap_cons, RegOp.bufKey]
        constructor
        · refine List.nodup_cons.mpr ⟨fun hmem => ?_, hnd⟩
          exact (hdis _ hmem) (List.mem_cons_self _ _)
        · intro k hk
          rcases List.mem_cons.mp hk with h1 | h2
          · exact h1 ▸ h
          · exact fun hkbs => (hdis k h2) (List.mem_cons_of_mem _ hkbs)
    | texture t =>
      by_cases h : t._id.toKey ∈ ts
      · simpa [dedupFrom, h] using ih bs ts
      · have hd : dedupFrom bs ts (RegOp.texture t :: rest) =
            RegOp.texture t :: dedupFrom bs (t._id.toKey :: ts) rest := by
          simp [dedupFrom, h]
        rw [hd]
        simpa [List.filterMap_cons, RegOp.bufKey] using
          ih bs (t._id.toKey :: ts)

theorem dedupFrom_texKeys (ops : List RegOp) :
    ∀ bufSeen texSeen : List String,
    ((dedupFrom bufSeen texSeen ops).filterMap RegOp.texKey).Nodup ∧
    ∀ k ∈ (dedupFrom bufSeen texSeen ops).filterMap RegOp.texKey,
      k ∉ texSeen := by
  induction ops with
  | nil => intro bs ts; exact ⟨List.nodup_nil, by simp [dedupFrom]⟩
  | cons op rest ih =>
    intro bs ts
    cases op with
    | texture t =>
      by_cases h : t._id.toKey ∈ ts
      · simpa [dedupFrom, h] using ih bs ts
      · have hd : dedupFrom bs ts (RegOp.texture t :: rest) =
            RegOp.texture t :: dedupFrom bs (t._id.toKey :: ts) rest := by
          simp [dedupFrom, h]
        rw [hd]
        obtain ⟨hnd, hdis⟩ := ih bs (t._id.toKey :: ts)
        simp only [List.filterMap_cons, RegOp.texKey]
        constructor
        · refine List.nodup_cons.mpr ⟨fun hmem => ?_, hnd⟩
          exact (hdis _ hmem) (List.mem_cons_self _ _)
        · intro k hk
          rcases List.mem_cons.mp hk with h1 | h2
          · exact h1 ▸ h
          · exact fun hkts => (hdis k h2) (List.mem_cons_of_mem _ hkts)
    | buffer b c =>
      by_cases h : b._id.toKey ∈ bs
      · simpa [dedupFrom, h] using ih bs ts
      · have hd : dedupFrom bs ts (RegOp.buffer b c :: rest) =
            RegOp.buffer b c :: dedupFrom (b._id.toKey :: bs) ts rest := by
          simp [dedupFrom, h]
        rw [hd]
        simpa [List.filterMap_cons, RegOp.texKey] using
          ih (b._id.toKey :: bs) ts

open ModelExperimentalStatistics in
theorem geometryByteLength_applyOps (ops : List RegOp) :
    ∀ s : ModelExperimentalStatistics,
    (ops.filterMap RegOp.bufKey).Nodup →
    (∀ k ∈ ops.filterMap RegOp.bufKey, k ∉ s._bufferIdSet) →
    (applyOps s ops).geometryByteLength =
      s.geometryByteLength + (ops.filterMap RegOp.bufContrib).sum := by
  induction ops with
  | nil => intro s _ _; simp [applyOps]
  | cons op rest ih =>
    intro s hnd hdis
    cases op with
    | texture t =>
      simp only [List.filterMap_cons, RegOp.bufKey, RegOp.bufContrib]
        at hnd hdis ⊢
      have hstep : applyOps s (RegOp.texture t :: rest) =
          applyOps (s.addTexture t) rest := rfl
      rw [hstep, ih (s.addTexture t) hnd
        (fun k hk => (addTexture_frame s t).2.2.2.2.1 ▸ hdis k hk)]
      rw [(addTexture_frame s t).2.2.1]
    | buffer b c =>
      simp only [List.filterMap_cons, RegOp.bufKey, RegOp.bufContrib,
        List.nodup_cons, List.mem_cons, List.sum_cons] at hnd hdis ⊢
      have hkey : b._id.toKey ∉ s._bufferIdSet := hdis _ (Or.inl rfl)
      have hfresh := addBuffer_fresh s b c hkey
      have hstep : applyOps s (RegOp.buffer b c :: rest) =
          applyOps (s.addBuffer b c) rest := rfl
      have hd : ∀ k ∈ rest.filterMap RegOp.bufKey,
          k ∉ (s.addBuffer b c)._bufferIdSet := by
        intro k hk
        rw [hfresh.2]
        simp only [List.mem_cons]
        rintro (h1 | h2)
        · exact hnd.1 (h1 ▸ hk)
        · exact hdis k (Or.inr hk) h2
      rw [hstep, ih (s.addBuffer b c) hnd.2 hd, hfresh.1]
      exact Nat.add_assoc _ _ _

open ModelExperimentalStatistics in
theorem texturesByteLength_applyOps (ops : List RegOp) :
    ∀ s : ModelExperimentalStatistics,
    (ops.filterMap RegOp.texKey).Nodup →
    (∀ k ∈ ops.filterMap RegOp.texKey, k ∉ s._textureIdSet) →
    (applyOps s ops).texturesByteLength =
      s.texturesByteLength + (ops.filterMap RegOp.texContrib).sum := by
  induction ops with
  | nil => intro s _ _; simp [applyOps]
  | cons op rest ih =>
    intro s hnd hdis
    cases op with
    | buffer b c =>
      simp only [List.filterMap_cons, RegOp.texKey, RegOp.texContrib]
        at hnd hdis ⊢
      have hstep : applyOps s (RegOp.buffer b c :: rest) =
          applyOps (s.addBuffer b c) rest := rfl
      rw [hstep, ih (s.addBuffer b c) hnd
        (fun k hk => (addBuffer_frame s b c).2.2.2.2.1 ▸ hdis k hk)]
      rw [(addBuffer_frame s b c).2.2.1]
    | texture t =>
      simp only [List.filterMap_cons, RegOp.texKey, RegOp.texContrib,
        List.nodup_cons, List.mem_cons, List.sum_cons] at hnd hdis ⊢
      have hkey : t._id.toKey ∉ s._textureIdSet := hdis _ (Or.inl rfl)
      have hfresh := addTexture_fresh s t hkey
      have hstep : applyOps s (RegOp.texture t :: rest) =
          applyOps (s.addTexture t) rest := rfl
      have hd : ∀ k ∈ rest.filterMap RegOp.texKey,
          k ∉ (s.addTexture t)._textureIdSet := by
        intro k hk
        rw [hfresh.2]
        simp only [List.mem_cons]
        rintro (h1 | h2)
        · exact hnd.1 (h1 ▸ hk)
        · exact hdis k (Or.inr hk) h2
      rw [hstep, ih (s.addTexture t) hnd.2 hd, hfresh.1]
      exact Nat.add_assoc _ _ _

/-! ## Claim theorems -/

open ModelExperimentalStatistics

/-- Claim C1: for every sequence of addBuffer/addTexture calls within one
generation, each distinct identity contributes at most once. First conjunct:
any sequence drives the record to exactly the state of its first-occurrence
subsequence — every later re-registration of an already-seen identity,
whatever its size or flag and wherever it sits in the sequence, contributes
nothing. Second conjunct: a registration whose identity already occurred
anywhere earlier in the sequence (with arbitrary intervening operations and
a possibly different size or flag) can be dropped without changing the final
record, so registering an identity N≥1 times acts exactly like registering
it once. -/
theorem claim_C1 (s : ModelExperimentalStatistics) (ops ops₁ ops₂ : List RegOp)
    (dup : RegOp) :
    applyOps s ops =
      applyOps s (dedupFrom s._bufferIdSet s._textureIdSet ops) ∧
    ((∃ op0 ∈ ops₁, op0.identity = dup.identity) →
      applyOps s (ops₁ ++ dup :: ops₂) = applyOps s (ops₁ ++ ops₂)) := by
  refine ⟨applyOps_dedupFrom ops s, fun ⟨op0, hmem, hid⟩ => ?_⟩
  obtain ⟨l1, l2, rfl⟩ := List.append_of_mem hmem
  have hreg : registeredIdentity (applyOps s (l1 ++ op0 :: l2))
      dup.identity := by
    have hstep : applyOps s (l1 ++ op0 :: l2) =
        applyOps (applyOp (applyOps s l1) op0) l2 := by
      rw [applyOps, List.foldl_append]
      rfl
    rw [hstep, ← hid]
    exact registered_mono_applyOps l2 _ _
      (registered_applyOp_self (applyOps s l1) op0)
  have h1 : applyOps s ((l1 ++ op0 :: l2) ++ dup :: ops₂) =
      applyOps (applyOp (applyOps s (l1 ++ op0 :: l2)) dup) ops₂ := by
    rw [applyOps, List.foldl_append]
    rfl
  have h2 : applyOps s ((l1 ++ op0 :: l2) ++ ops₂) =
      applyOps (applyOps s (l1 ++ op0 :: l2)) ops₂ := by
    rw [applyOps, List.foldl_append]
    rfl
  rw [h1, h2, applyOp_registered _ dup hreg]

/-- Witness for C1 at a concrete input: buffer id "a" is registered (size
100, no CPU copy), a texture intervenes, and a re-registration of id "a"
with a different size and flag (size 50, CPU copy) is dropped without
changing the final record. -/
theorem claim_C1_witness :
    (∃ op0 ∈ [RegOp.buffer (Buffer.mk (JSId.str "a") 100) false,
        RegOp.texture (Texture.mk (JSId.str "t") 40)],
      op0.identity = (RegOp.buffer (Buffer.mk (JSId.str "a") 50)
        true).identity) ∧
    applyOps ModelExperimentalStatistics.init
        ([RegOp.buffer (Buffer.mk (JSId.str "a") 100) false,
          RegOp.texture (Texture.mk (JSId.str "t") 40)] ++
          RegOp.buffer (Buffer.mk (JSId.str "a") 50) true ::
            [RegOp.texture (Texture.mk (JSId.str "u") 60)]) =
      applyOps ModelExperimentalStatistics.init
        ([RegOp.buffer (Buffer.mk (JSId.str "a") 100) false,
          RegOp.texture (Texture.mk (JSId.str "t") 40)] ++
          [RegOp.texture (Texture.mk (JSId.str "u") 60)]) :=
  ⟨by decide,
    (claim_C1 ModelExperimentalStatistics.init []
      [RegOp.buffer (Buffer.mk (JSId.str "a") 100) false,
        RegOp.texture (Texture.mk (JSId.str "t") 40)]
      [RegOp.texture (Texture.mk (JSId.str "u") 60)]
      (RegOp.buffer (Buffer.mk (JSId.str "a") 50) true)).2 (by decide)⟩

/-- Claim C2: `batchTexturesByteLength` sums, over the references retained in
the registry, the byte size reported by the read-time environment `σ` — the
sizes are sampled at the instant of the read (the same state read under a
different `σ` yields the new sizes with no re-registration), and registering
a fresh overlay texture extends the reported sum by that texture's current
size. -/
theorem claim_C2 (s : ModelExperimentalStatistics) (σ : Nat → Nat)
    (bt : BatchTexture) :
    s.batchTexturesByteLength σ =
      (s._batchTextureIdMap.values.map (fun v => σ v.ref)).sum ∧
    (s._batchTextureIdMap.contains bt._id.toKey = false →
      (s.addBatchTexture bt).batchTexturesByteLength σ =
        s.batchTexturesByteLength σ + σ bt.ref) := by
  refine ⟨batchTexturesByteLength_eq_sum s σ, fun h => ?_⟩
  have hv : (s.addBatchTexture bt)._batchTextureIdMap.values =
      s._batchTextureIdMap.values ++ [bt] := by
    unfold AssociativeArray.values
    rw [addBatchTexture_fresh s bt h, List.map_append]
    rfl
  rw [batchTexturesByteLength_eq_sum, batchTexturesByteLength_eq_sum, hv,
    List.map_append, List.sum_append]
  simp

/-- Witness for C2 at a concrete input: registering one overlay texture with
heap reference 7 into an empty record and reading under the identity
environment adds 7 to the (empty) sum. -/
theorem claim_C2_witness :
    (ModelExperimentalStatistics.init._batchTextureIdMap.contains
      (BatchTexture.mk (JSId.str "o") 7)._id.toKey = false) ∧
    (ModelExperimentalStatistics.init.addBatchTexture
        (BatchTexture.mk (JSId.str "o") 7)).batchTexturesByteLength
        (fun r => r) =
      ModelExperimentalStatistics.init.batchTexturesByteLength
        (fun r => r) + 7 :=
  ⟨by decide,
    (claim_C2 ModelExperimentalStatistics.init (fun r => r)
      (BatchTexture.mk (JSId.str "o") 7)).2 (by decide)⟩

/-- Claim C3: after `clear()` the five reported quantities are 0 (the lazy
aggregate reads 0 because the registry is empty), both id sets are empty,
and previously seen identities count again as if new: a fresh `addBuffer`,
`addTexture` or `addBatchTexture` on the cleared record contributes fully. -/
theorem claim_C3 (s : ModelExperimentalStatistics) (σ : Nat → Nat)
    (b : Buffer) (c : Bool) (t : Texture) (bt : BatchTexture) :
    s.clear.pointsLength = 0 ∧
    s.clear.trianglesLength = 0 ∧
    s.clear.geometryByteLength = 0 ∧
    s.clear.texturesByteLength = 0 ∧
    s.clear.propertyTablesByteLength = 0 ∧
    s.clear.batchTexturesByteLength σ = 0 ∧
    s.clear._bufferIdSet = [] ∧
    s.clear._textureIdSet = [] ∧
    s.clear._batchTextureIdMap.entries = [] ∧
    (s.clear.addBuffer b c).geometryByteLength =
      b.sizeInBytes * (if c then 2 else 1) ∧
    (s.clear.addTexture t).texturesByteLength = t.sizeInBytes ∧
    (s.clear.addBatchTexture bt)._batchTextureIdMap.values = [bt] := by
  refine ⟨rfl, rfl, rfl, rfl, rfl, ?_, rfl, rfl, rfl, ?_, ?_, ?_⟩
  · rw [batchTexturesByteLength_eq_sum]
    rfl
  · rw [(addBuffer_fresh s.clear b c (by simp [clear])).1]
    exact Nat.zero_add _
  · rw [(addTexture_fresh s.clear t (by simp [clear])).1]
    exact Nat.zero_add _
  · unfold AssociativeArray.values
    rw [addBatchTexture_fresh s.clear bt rfl]
    rfl

/-- Claim C4: for a buffer whose identity is not yet in the buffer id set,
`addBuffer(buffer, true)` adds exactly `2 × buffer.sizeInBytes` to
`geometryByteLength`, `addBuffer(buffer, false)` adds exactly
`1 × buffer.sizeInBytes`, and the other reported quantities, the texture id
set and the batch-texture registry are unchanged (the buffer id set itself
gains the identity, as the source's unconditional insert dictates). -/
theorem claim_C4 (s : ModelExperimentalStatistics) (b : Buffer)
    (h : b._id.toKey ∉ s._bufferIdSet) :
    (s.addBuffer b true).geometryByteLength =
      s.geometryByteLength + 2 * b.sizeInBytes ∧
    (s.addBuffer b false).geometryByteLength =
      s.geometryByteLength + b.sizeInBytes ∧
    ∀ c : Bool,
      (s.addBuffer b c).pointsLength = s.pointsLength ∧
      (s.addBuffer b c).trianglesLength = s.trianglesLength ∧
      (s.addBuffer b c).texturesByteLength = s.texturesByteLength ∧
      (s.addBuffer b c).propertyTablesByteLength =
        s.propertyTablesByteLength ∧
      (s.addBuffer b c)._textureIdSet = s._textureIdSet ∧
      (s.addBuffer b c)._batchTextureIdMap = s._batchTextureIdMap := by
  refine ⟨?_, ?_, fun c => addBuffer_frame s b c⟩
  · rw [(addBuffer_fresh s b true h).1]
    simp [Nat.mul_comm]
  · rw [(addBuffer_fresh s b false h).1]
    simp

/-- Witness for C4 at a concrete input: a fresh buffer of size 100 with a
CPU copy contributes 200 bytes to an empty record. -/
theorem claim_C4_witness :
    ((Buffer.mk (JSId.str "a") 100)._id.toKey ∉
      ModelExperimentalStatistics.init._bufferIdSet) ∧
    (ModelExperimentalStatistics.init.addBuffer
        (Buffer.mk (JSId.str "a") 100) true).geometryByteLength =
      ModelExperimentalStatistics.init.geometryByteLength + 2 * 100 :=
  ⟨by decide,
    (claim_C4 ModelExperimentalStatistics.init
      (Buffer.mk (JSId.str "a") 100) (by decide)).1⟩

/-- Claim C5: a second `addBuffer` call with the same identity is a complete
no-op on the record, even with a different `hasCpuCopy` flag or a different
`sizeInBytes`: only the first registration's flag and size are honored. -/
theorem claim_C5 (s : ModelExperimentalStatistics) (b : Buffer)
    (c c' : Bool) (sz' : Nat) :
    (s.addBuffer b c).addBuffer (Buffer.mk b._id sz') c' =
      s.addBuffer b c :=
  addBuffer_mem _ _ c' (mem_bufferIdSet_addBuffer s b c)

/-- Claim C6: within one generation, registrations are commutative and
idempotent per identity — the final `geometryByteLength` and
`texturesByteLength` depend only on the set of distinct identities
registered and their sizes and flags at first registration, not on the
order or multiplicity of the registrations: whenever two sequences (each
free to re-register identities any number of times with any sizes or
flags) have first-occurrence subsequences that are permutations of each
other, they produce equal totals. -/
theorem claim_C6 (s : ModelExperimentalStatistics)
    (ops₁ ops₂ : List RegOp)
    (hp : List.Perm (dedupFrom s._bufferIdSet s._textureIdSet ops₁)
      (dedupFrom s._bufferIdSet s._textureIdSet ops₂)) :
    (applyOps s ops₁).geometryByteLength =
      (applyOps s ops₂).geometryByteLength ∧
    (applyOps s ops₁).texturesByteLength =
      (applyOps s ops₂).texturesByteLength := by
  obtain ⟨hnb₁, hdb₁⟩ :=
    dedupFrom_bufKeys ops₁ s._bufferIdSet s._textureIdSet
  obtain ⟨hnt₁, hdt₁⟩ :=
    dedupFrom_texKeys ops₁ s._bufferIdSet s._textureIdSet
  obtain ⟨hnb₂, hdb₂⟩ :=
    dedupFrom_bufKeys ops₂ s._bufferIdSet s._textureIdSet
  obtain ⟨hnt₂, hdt₂⟩ :=
    dedupFrom_texKeys ops₂ s._bufferIdSet s._textureIdSet
  rw [applyOps_dedupFrom ops₁ s, applyOps_dedupFrom ops₂ s]
  constructor
  · rw [geometryByteLength_applyOps _ s hnb₁ hdb₁,
      geometryByteLength_applyOps _ s hnb₂ hdb₂,
      (hp.filterMap RegOp.bufContrib).sum_eq]
  · rw [texturesByteLength_applyOps _ s hnt₁ hdt₁,
      texturesByteLength_applyOps _ s hnt₂ hdt₂,
      (hp.filterMap RegOp.texContrib).sum_eq]

/-- Witness for C6 at a concrete input: `[A, T, A-dup]` and `[T, A, A-dup2]`
(the duplicates re-register buffer id "a" with different sizes and flags)
have permuted first-occurrence subsequences and therefore equal final
totals. -/
theorem claim_C6_witness :
    (List.Perm
      (dedupFrom ModelExperimentalStatistics.init._bufferIdSet
        ModelExperimentalStatistics.init._textureIdSet
        [RegOp.buffer (Buffer.mk (JSId.str "a") 100) false,
          RegOp.texture (Texture.mk (JSId.str "t") 40),
          RegOp.buffer (Buffer.mk (JSId.str "a") 50) true])
      (dedupFrom ModelExperimentalStatistics.init._bufferIdSet
        ModelExperimentalStatistics.init._textureIdSet
        [RegOp.texture (Texture.mk (JSId.str "t") 40),
          RegOp.buffer (Buffer.mk (JSId.str "a") 100) false,
          RegOp.buffer (Buffer.mk (JSId.str "a") 77) false])) ∧
    (applyOps ModelExperimentalStatistics.init
        [RegOp.buffer (Buffer.mk (JSId.str "a") 100) false,
          RegOp.texture (Texture.mk (JSId.str "t") 40),
          RegOp.buffer (Buffer.mk (JSId.str "a") 50)
            true]).geometryByteLength =
      (applyOps ModelExperimentalStatistics.init
        [RegOp.texture (Texture.mk (JSId.str "t") 40),
          RegOp.buffer (Buffer.mk (JSId.str "a") 100) false,
          RegOp.buffer (Buffer.mk (JSId.str "a") 77)
            false]).geometryByteLength ∧
    (applyOps ModelExperimentalStatistics.init
        [RegOp.buffer (Buffer.mk (JSId.str "a") 100) false,
          RegOp.texture (Texture.mk (JSId.str "t") 40),
          RegOp.buffer (Buffer.mk (JSId.str "a") 50)
            true]).texturesByteLength =
      (applyOps ModelExperimentalStatistics.init
        [RegOp.texture (Texture.mk (JSId.str "t") 40),
          RegOp.buffer (Buffer.mk (JSId.str "a") 100) false,
          RegOp.buffer (Buffer.mk (JSId.str "a") 77)
            false]).texturesByteLength :=
  ⟨by decide,
    (claim_C6 ModelExperimentalStatistics.init _ _ (by decide)).1,
    (claim_C6 ModelExperimentalStatistics.init _ _ (by decide)).2⟩

/-- Claim C7: `addBatchTexture` changes no scalar total and no dedup set at
registration time (and, reading no size, takes no size environment at all);
a fresh identity inserts the identity → reference entry, an already-present
identity makes the call a complete no-op, so the first-registered reference
for each identity is the one retained. -/
theorem claim_C7 (s : ModelExperimentalStatistics) (bt bt' : BatchTexture)
    (h : bt'._id.toKey = bt._id.toKey) :
    ((s.addBatchTexture bt).pointsLength = s.pointsLength ∧
      (s.addBatchTexture bt).trianglesLength = s.trianglesLength ∧
      (s.addBatchTexture bt).geometryByteLength = s.geometryByteLength ∧
      (s.addBatchTexture bt).texturesByteLength = s.texturesByteLength ∧
      (s.addBatchTexture bt).propertyTablesByteLength =
        s.propertyTablesByteLength ∧
      (s.addBatchTexture bt)._bufferIdSet = s._bufferIdSet ∧
      (s.addBatchTexture bt)._textureIdSet = s._textureIdSet) ∧
    (s._batchTextureIdMap.contains bt._id.toKey = true →
      s.addBatchTexture bt = s) ∧
    (s._batchTextureIdMap.contains bt._id.toKey = false →
      (s.addBatchTexture bt)._batchTextureIdMap.entries =
        s._batchTextureIdMap.entries ++ [(bt._id.toKey, bt)]) ∧
    (s.addBatchTexture bt).addBatchTexture bt' = s.addBatchTexture bt := by
  refine ⟨addBatchTexture_frame s bt, addBatchTexture_contained s bt,
    addBatchTexture_fresh s bt, ?_⟩
  apply addBatchTexture_contained
  rw [h]
  exact contains_addBatchTexture_self s bt

/-- Witness for C7 at a concrete input: re-registering the identity "o"
with a different reference leaves the record exactly as after the first
registration (the first reference is retained). -/
theorem claim_C7_witness :
    ((BatchTexture.mk (JSId.str "o") 2)._id.toKey =
      (BatchTexture.mk (JSId.str "o") 1)._id.toKey) ∧
    (ModelExperimentalStatistics.init.addBatchTexture
        (BatchTexture.mk (JSId.str "o") 1)).addBatchTexture
        (BatchTexture.mk (JSId.str "o") 2) =
      ModelExperimentalStatistics.init.addBatchTexture
        (BatchTexture.mk (JSId.str "o") 1) :=
  ⟨by decide,
    (claim_C7 ModelExperimentalStatistics.init
      (BatchTexture.mk (JSId.str "o") 1)
      (BatchTexture.mk (JSId.str "o") 2) (by decide)).2.2.2⟩

/-- Claim C8: each registration operation raises `InvalidArgument` when a
required reference is missing, or when `addBuffer`'s flag is not a boolean;
the check runs before any mutation, so an error leaves the record untouched
(the error result carries no successor state), and with well-typed
arguments the checked operation always succeeds with the unchecked
behavior. -/
theorem claim_C8 (s : ModelExperimentalStatistics) (b : Buffer)
    (t : Texture) (bt : BatchTexture) (c : Bool) (co : Option Bool) :
    s.addBufferChecked none co = .error .invalidArgument ∧
    s.addBufferChecked (some b) none = .error .invalidArgument ∧
    s.addBufferChecked (some b) (some c) = .ok (s.addBuffer b c) ∧
    s.addTextureChecked none = .error .invalidArgument ∧
    s.addTextureChecked (some t) = .ok (s.addTexture t) ∧
    s.addBatchTextureChecked none = .error .invalidArgument ∧
    s.addBatchTextureChecked (some bt) = .ok (s.addBatchTexture bt) :=
  ⟨rfl, rfl, rfl, rfl, rfl, rfl, rfl⟩

/-- Claim C9: frame conditions — `addTexture` touches only
`texturesByteLength` and the texture id set, `addBuffer` only
`geometryByteLength` and the buffer id set, `addBatchTexture` only the
batch-texture registry; no operation modifies a counter or dedup structure
of a different resource kind. -/
theorem claim_C9 (s : ModelExperimentalStatistics) (t : Texture)
    (b : Buffer) (c : Bool) (bt : BatchTexture) :
    ((s.addTexture t).pointsLength = s.pointsLength ∧
      (s.addTexture t).trianglesLength = s.trianglesLength ∧
      (s.addTexture t).geometryByteLength = s.geometryByteLength ∧
      (s.addTexture t).propertyTablesByteLength =
        s.propertyTablesByteLength ∧
      (s.addTexture t)._bufferIdSet = s._bufferIdSet ∧
      (s.addTexture t)._batchTextureIdMap = s._batchTextureIdMap) ∧
    ((s.addBuffer b c).pointsLength = s.pointsLength ∧
      (s.addBuffer b c).trianglesLength = s.trianglesLength ∧
      (s.addBuffer b c).texturesByteLength = s.texturesByteLength ∧
      (s.addBuffer b c).propertyTablesByteLength =
        s.propertyTablesByteLength ∧
      (s.addBuffer b c)._textureIdSet = s._textureIdSet ∧
      (s.addBuffer b c)._batchTextureIdMap = s._batchTextureIdMap) ∧
    ((s.addBatchTexture bt).pointsLength = s.pointsLength ∧
      (s.addBatchTexture bt).trianglesLength = s.trianglesLength ∧
      (s.addBatchTexture bt).geometryByteLength = s.geometryByteLength ∧
      (s.addBatchTexture bt).texturesByteLength = s.texturesByteLength ∧
      (s.addBatchTexture bt).propertyTablesByteLength =
        s.propertyTablesByteLength ∧
      (s.addBatchTexture bt)._bufferIdSet = s._bufferIdSet ∧
      (s.addBatchTexture bt)._textureIdSet = s._textureIdSet) :=
  ⟨addTexture_frame s t, addBuffer_frame s b c, addBatchTexture_frame s bt⟩

/-- Claim C10: deduplication keys on the string coercion of `_id` (the id is
used as a plain-object property key): two distinct buffer (or texture)
references whose ids coerce to the same string — such as the number 1 and
the string "1" — are one identity, so the second registration is a no-op. -/
theorem claim_C10 (s : ModelExperimentalStatistics) (b₁ b₂ : Buffer)
    (c₁ c₂ : Bool) (t₁ t₂ : Texture)
    (hb : b₂._id.toKey = b₁._id.toKey)
    (ht : t₂._id.toKey = t₁._id.toKey) :
    (s.addBuffer b₁ c₁).addBuffer b₂ c₂ = s.addBuffer b₁ c₁ ∧
    (s.addTexture t₁).addTexture t₂ = s.addTexture t₁ := by
  constructor
  · apply addBuffer_mem
    rw [hb]
    exact mem_bufferIdSet_addBuffer s b₁ c₁
  · apply addTexture_mem
    rw [ht]
    exact mem_textureIdSet_addTexture s t₁

/-- Witness for C10 at a concrete input: the numeric id 1 and the string id
"1" coerce to the same property key, so a second buffer (and texture) with
the other spelling of the id is treated as a duplicate. -/
theorem claim_C10_witness :
    ((Buffer.mk (JSId.str "1") 50)._id.toKey =
      (Buffer.mk (JSId.num 1) 100)._id.toKey) ∧
    ((Texture.mk (JSId.str "2") 60)._id.toKey =
      (Texture.mk (JSId.num 2) 40)._id.toKey) ∧
    (ModelExperimentalStatistics.init.addBuffer
        (Buffer.mk (JSId.num 1) 100) false).addBuffer
        (Buffer.mk (JSId.str "1") 50) true =
      ModelExperimentalStatistics.init.addBuffer
        (Buffer.mk (JSId.num 1) 100) false ∧
    (ModelExperimentalStatistics.init.addTexture
        (Texture.mk (JSId.num 2) 40)).addTexture
        (Texture.mk (JSId.str "2") 60) =
      ModelExperimentalStatistics.init.addTexture
        (Texture.mk (JSId.num 2) 40) :=
  ⟨by decide, by decide,
    claim_C10 ModelExperimentalStatistics.init (Buffer.mk (JSId.num 1) 100)
      (Buffer.mk (JSId.str "1") 50) false true (Texture.mk (JSId.num 2) 40)
      (Texture.mk (JSId.str "2") 60) (by decide) (by decide)⟩

end Cesium
